import Mathlib

namespace FastapiDemo

/-! Shallow embedding of the background-job dispatch path of the
fastapi-democode repository: the producer endpoint (app/users/routes.py),
the worker module (app/worker.py) and the email service
(app/services/email/__init__.py). -/

/-- Job lifecycle statuses of the data model. -/
inductive JobStatus
  | queued
  | running
  | succeeded
  | failed
  | retrying
  deriving DecidableEq, Repr

/-- A persisted job record: a name selecting the handler, a keyword payload,
a status and an attempt count. -/
structure JobRecord where
  id : Nat
  name : String
  payload : List (String × String)
  status : JobStatus
  attempts : Nat
  deriving DecidableEq, Repr

/-- Producer-side queue errors: connectivity to the store may be lost. -/
inductive QueueError
  | unavailable
  deriving DecidableEq, Repr

/-- State of the shared queue store as seen by the producer process;
`reachable` records whether the store is currently connectable. -/
structure QueueState where
  records : List JobRecord
  nextId : Nat
  reachable : Bool
  deriving DecidableEq, Repr

/-- Modelled from the spec: `enqueue(name, payload) -> job_id` of the saq queue
library (an excluded provider, not code under src/): it constructs a Job Record
in `queued` state, persists it and returns an identifier; when store
connectivity is lost it raises instead of returning. -/
def enqueue (q : QueueState) (name : String) (payload : List (String × String)) :
    Except QueueError (Nat × QueueState) :=
  if q.reachable then
    Except.ok (q.nextId,
      { q with
          records := q.records ++ [⟨q.nextId, name, payload, JobStatus.queued, 0⟩],
          nextId := q.nextId + 1 })
  else
    Except.error QueueError.unavailable

/-- The authenticated user injected by `Depends(current_user)`. -/
structure User where
  email : String
  deriving DecidableEq, Repr

/-- app/users/routes.py, `log_user_info`: awaits a single
`queue.enqueue("log_user_email", user_email=user.email)`, discarding the
returned job object; no try/except surrounds the call. -/
def log_user_info (user : User) (q : QueueState) : Except QueueError QueueState := do
  let (_job, q') ← enqueue q "log_user_email" [("user_email", user.email)]
  return q'

/-- Python parameter kinds relevant to the handler signature contract. -/
inductive ParamKind
  | positionalOrKeyword
  | keywordOnly
  | varKeyword
  deriving DecidableEq, Repr

/-- One parameter of a Python function signature. -/
structure Param where
  name : String
  kind : ParamKind
  hasDefault : Bool
  deriving DecidableEq, Repr

/-- A background handler as the worker registers it: its function name and its
signature. -/
structure Handler where
  name : String
  params : List Param
  deriving DecidableEq, Repr

/-- The signature conforms to `(context, **payload) -> result`: a first
positional context parameter without default, every further parameter passable
only by keyword. -/
def conformsToHandlerSignature (ps : List Param) : Bool :=
  match ps with
  | [] => false
  | ctx :: rest =>
    ctx.kind == ParamKind.positionalOrKeyword && !ctx.hasDefault &&
      rest.all (fun p => p.kind == ParamKind.keywordOnly || p.kind == ParamKind.varKeyword)

/-- Modelled from the spec: app/users/tasks.py is not under src/. The spec's
scenario enqueues `("log_user_email", user_email="a@example.com")` and the
handler contract is `(context, **payload) -> result`, so `log_user_email`
takes the worker context and the keyword payload `user_email`. -/
def log_user_email : Handler :=
  { name := "log_user_email",
    params := [⟨"ctx", ParamKind.positionalOrKeyword, false⟩,
               ⟨"user_email", ParamKind.keywordOnly, false⟩] }

/-- app/services/email/__init__.py, `send_email_task`: a positional context
parameter `_`, then keyword-only `recipient`, `sender` (defaulted), `subject`,
`text` (defaulted) and `html` (defaulted). -/
def send_email_task_handler : Handler :=
  { name := "send_email_task",
    params := [⟨"_", ParamKind.positionalOrKeyword, false⟩,
               ⟨"recipient", ParamKind.keywordOnly, false⟩,
               ⟨"sender", ParamKind.keywordOnly, true⟩,
               ⟨"subject", ParamKind.keywordOnly, false⟩,
               ⟨"text", ParamKind.keywordOnly, true⟩,
               ⟨"html", ParamKind.keywordOnly, true⟩] }

/-- app/worker.py: the dotted import paths of the background functions. -/
def BACKGROUND_FUNCTIONS : List String :=
  ["app.users.tasks.log_user_email", "app.services.email.send_email_task"]

/-- The characters after the last dot of a dotted path. -/
def lastDottedComponent (acc : List Char) (cs : List Char) : List Char :=
  match cs with
  | [] => acc
  | '.' :: rest => lastDottedComponent [] rest
  | c :: rest => lastDottedComponent (acc ++ [c]) rest

/-- `pydantic.utils.import_string` resolves a dotted path to the named object;
the function object's name, under which saq registers the handler, is the
final dotted component of the path. -/
def importedFunctionName (path : String) : String :=
  String.mk (lastDottedComponent [] path.toList)

/-- app/worker.py: `FUNCTIONS = [import_string(bg_func) for bg_func in
BACKGROUND_FUNCTIONS]`, a plain module-level constant built once when the
module loads and never reassigned or mutated anywhere in the repository. -/
def FUNCTIONS : List Handler := [log_user_email, send_email_task_handler]

/-- The job names under which the worker registers its handlers. -/
def registeredNames : List String := FUNCTIONS.map Handler.name

/-- The fields of the app.core.config settings object that the sources under
src/ read (app/core/config.py itself is not under src/). -/
structure AppConfig where
  REDIS_URL : String
  EMAILS_ENABLED : Bool
  SMTP_HOST : String
  SMTP_USERNAME : String
  SMTP_PASSWORD : String
  SMTP_TLS : Bool
  SMTP_PORT : Nat
  DEFAULT_FROM_EMAIL : String
  DEFAULT_FROM_NAME : String
  deriving DecidableEq, Repr

/-- A value stored in the worker settings mapping. -/
inductive SettingValue
  | queueClient (redisUrl : String)
  | functionList (fns : List Handler)
  | intVal (n : Int)
  | startupHook
  | shutdownHook
  deriving DecidableEq, Repr

/-- app/worker.py: the module-level `settings` dict handed to saq (the module
shadows the imported config object with it), holding the queue client built by
`Queue.from_url(settings.REDIS_URL)`, the FUNCTIONS registry, the literal
concurrency 10, and the startup and shutdown hooks. -/
def worker_settings (cfg : AppConfig) : List (String × SettingValue) :=
  [("queue", SettingValue.queueClient cfg.REDIS_URL),
   ("functions", SettingValue.functionList FUNCTIONS),
   ("concurrency", SettingValue.intVal 10),
   ("startup", SettingValue.startupHook),
   ("shutdown", SettingValue.shutdownHook)]

/-- Database-layer effects performed by the worker lifecycle hooks. -/
inductive DbEffect
  | tortoiseInit (ormConfig : String)
  | closeConnections
  deriving DecidableEq, Repr

/-- Stands for the TORTOISE_ORM configuration object imported from
app/db/config.py (not under src/). -/
def TORTOISE_ORM : String := "TORTOISE_ORM"

/-- app/worker.py `startup`: awaits `Tortoise.init(config=TORTOISE_ORM)`,
binding a connection set to the db object. -/
def startup (_ctx : List (String × String)) : List DbEffect :=
  [DbEffect.tortoiseInit TORTOISE_ORM]

/-- app/worker.py `shutdown`: awaits `Tortoise.close_connections()`. -/
def shutdown (_ctx : List (String × String)) : List DbEffect :=
  [DbEffect.closeConnections]

/-- Events observable during one worker process run. -/
inductive WorkerEvent
  | db (e : DbEffect)
  | handlerRun (jobName : String)
  deriving DecidableEq, Repr

/-- Modelled from the spec: the saq worker process (an excluded provider) runs
the registered startup hook once at process start, then the handler
invocations, then the registered shutdown hook once at shutdown. -/
def workerProcessTrace (ctx : List (String × String)) (runs : List String) :
    List WorkerEvent :=
  (startup ctx).map WorkerEvent.db ++ runs.map WorkerEvent.handlerRun ++
    (shutdown ctx).map WorkerEvent.db

/-- State of a worker pool draining the queue: pending job ids, active
(slot, job) assignments, completed job ids. -/
structure PoolState where
  pending : List Nat
  active : List (Nat × Nat)
  done : List Nat
  deriving DecidableEq, Repr

/-- Modelled from the spec: the saq worker pool (an excluded provider) with K
slots. `dequeue` atomically removes the next pending record and delivers it to
a free slot, so delivery of each record is exclusive; completing a slot's
record moves it to done. -/
inductive PoolStep (K : Nat) : PoolState → PoolState → Prop
  | dequeue (slot j : Nat) (rest : List Nat) (a : List (Nat × Nat)) (d : List Nat) :
      slot < K → (∀ p ∈ a, p.1 ≠ slot) →
      PoolStep K ⟨j :: rest, a, d⟩ ⟨rest, (slot, j) :: a, d⟩
  | complete (slot j : Nat) (p : List Nat) (a₁ a₂ : List (Nat × Nat)) (d : List Nat) :
      PoolStep K ⟨p, a₁ ++ (slot, j) :: a₂, d⟩ ⟨p, a₁ ++ a₂, j :: d⟩

/-- Finitely many pool steps. -/
inductive PoolReach (K : Nat) : PoolState → PoolState → Prop
  | refl (s : PoolState) : PoolReach K s s
  | step (s t u : PoolState) : PoolReach K s t → PoolStep K t u → PoolReach K s u

/-- All job ids present in a pool state, with multiplicity. -/
def jobsOf (s : PoolState) : List Nat :=
  s.pending ++ s.active.map Prod.snd ++ s.done

/-- The email provider chosen by get_mailer. -/
inductive EmailProvider
  | Null
  | SMTPMailer (host username password : String) (tls : Bool) (port : Nat)
  deriving DecidableEq, Repr

/-- app/services/email/__init__.py, `get_mailer`: an SMTPMailer built from the
SMTP settings when EMAILS_ENABLED, else the Null provider. -/
def get_mailer (cfg : AppConfig) : EmailProvider :=
  if cfg.EMAILS_ENABLED then
    EmailProvider.SMTPMailer cfg.SMTP_HOST cfg.SMTP_USERNAME cfg.SMTP_PASSWORD
      cfg.SMTP_TLS cfg.SMTP_PORT
  else
    EmailProvider.Null

/-- app/services/email/__init__.py: `mailer = get_mailer()`, evaluated once at
module import; every send goes through this module-level provider. -/
def mailer (cfg : AppConfig) : EmailProvider := get_mailer cfg

/-- An actually delivered email. -/
structure SendEffect where
  recipient : String × Option String
  sender : String × Option String
  subject : String
  text : Option String
  html : Option String
  deriving DecidableEq, Repr

/-- Email-layer errors: SMTP delivery may fail. -/
inductive EmailError
  | smtpFailure
  deriving DecidableEq, Repr

/-- Modelled from the spec: app/services/email/null.py and smtp.py are not
under src/. The Null provider's send_email delivers nothing and succeeds; the
SMTPMailer delivers one email, succeeding only while the SMTP server is
reachable (smtpOk). -/
def send_email (smtpOk : Bool) (p : EmailProvider)
    (recipient sender : String × Option String) (subject : String)
    (text html : Option String) : Except EmailError (List SendEffect) :=
  match p with
  | EmailProvider.Null => Except.ok []
  | EmailProvider.SMTPMailer _ _ _ _ _ =>
      if smtpOk then Except.ok [⟨recipient, sender, subject, text, html⟩]
      else Except.error EmailError.smtpFailure

/-- app/services/email/__init__.py: `DEFAULT_SENDER`. -/
def DEFAULT_SENDER (cfg : AppConfig) : String × Option String :=
  (cfg.DEFAULT_FROM_EMAIL, some cfg.DEFAULT_FROM_NAME)

/-- app/services/email/__init__.py, `send_email_task`: forwards to the
module-level mailer's send_email, defaulting the sender to DEFAULT_SENDER. -/
def send_email_task (smtpOk : Bool) (cfg : AppConfig)
    (recipient : String × Option String)
    (sender : Option (String × Option String)) (subject : String)
    (text html : Option String) : Except EmailError (List SendEffect) :=
  send_email smtpOk (mailer cfg) recipient (sender.getD (DEFAULT_SENDER cfg))
    subject text html

/-- An empty, reachable queue store. -/
def qEmpty : QueueState := { records := [], nextId := 0, reachable := true }

/-- A queue store whose connectivity is lost. -/
def qDown : QueueState := { records := [], nextId := 0, reachable := false }

/-- The spec scenario's user. -/
def alice : User := { email := "a@example.com" }

/-- One concrete operator configuration. -/
def cfgA : AppConfig :=
  { REDIS_URL := "redis://localhost:6379", EMAILS_ENABLED := false,
    SMTP_HOST := "", SMTP_USERNAME := "", SMTP_PASSWORD := "",
    SMTP_TLS := false, SMTP_PORT := 0,
    DEFAULT_FROM_EMAIL := "noreply@example.com", DEFAULT_FROM_NAME := "Demo" }

/-- A second, different operator configuration. -/
def cfgB : AppConfig := { cfgA with REDIS_URL := "redis://other-host:6379" }

/-- A configuration with emails enabled. -/
def cfgMail : AppConfig :=
  { cfgA with
    EMAILS_ENABLED := true
    SMTP_HOST := "smtp.example.com"
    SMTP_USERNAME := "u"
    SMTP_PASSWORD := "p"
    SMTP_TLS := true
    SMTP_PORT := 587 }

/-- C1: each authenticated request to /users/log-user-info performs exactly one
enqueue, with name "log_user_email" and payload user_email = the user's email:
enqueue returns the fresh job identifier and the handler returns with the new
record appended in `queued` state (still unexecuted, so the route does not wait
for the job's completion) and the store otherwise unchanged. -/
theorem log_user_info_enqueues_exactly_once (user : User) (q : QueueState)
    (h : q.reachable = true) :
    enqueue q "log_user_email" [("user_email", user.email)] =
      Except.ok (q.nextId,
        { q with
            records := q.records ++
              [⟨q.nextId, "log_user_email", [("user_email", user.email)],
                JobStatus.queued, 0⟩],
            nextId := q.nextId + 1 }) ∧
    log_user_info user q =
      Except.ok
        { q with
            records := q.records ++
              [⟨q.nextId, "log_user_email", [("user_email", user.email)],
                JobStatus.queued, 0⟩],
            nextId := q.nextId + 1 } := by
  constructor <;> simp [log_user_info, enqueue, h]

/-- Witness for C1 at the spec scenario's concrete input. -/
theorem log_user_info_enqueues_exactly_once_witness :
    qEmpty.reachable = true ∧
    log_user_info alice qEmpty =
      Except.ok
        { records := [⟨0, "log_user_email", [("user_email", "a@example.com")],
            JobStatus.queued, 0⟩],
          nextId := 1, reachable := true } :=
  ⟨rfl, (log_user_info_enqueues_exactly_once alice qEmpty rfl).2⟩

/-- C8: the route has no exception handling, so an enqueue failure (store
unavailable) propagates out of log_user_info and the request fails. -/
theorem enqueue_failure_propagates (user : User) (q : QueueState)
    (h : q.reachable = false) :
    enqueue q "log_user_email" [("user_email", user.email)] =
      Except.error QueueError.unavailable ∧
    log_user_info user q = Except.error QueueError.unavailable := by
  constructor <;> simp [log_user_info, enqueue, h]

/-- Witness for C8 at a concrete unavailable store. -/
theorem enqueue_failure_propagates_witness :
    qDown.reachable = false ∧
    log_user_info alice qDown = Except.error QueueError.unavailable :=
  ⟨rfl, (enqueue_failure_propagates alice qDown rfl).2⟩

/-- C2: the sole enqueue site of the application uses the name
"log_user_email"; the worker registry's names are exactly the final components
of the BACKGROUND_FUNCTIONS import paths and include "log_user_email"
(from app.users.tasks.log_user_email), so every record the application
enqueues names a registered handler. -/
theorem enqueue_site_name_registered :
    registeredNames = ["log_user_email", "send_email_task"] ∧
    BACKGROUND_FUNCTIONS.map importedFunctionName = registeredNames ∧
    (∀ (user : User) (q q' : QueueState), log_user_info user q = Except.ok q' →
      ∀ r ∈ q'.records, r ∈ q.records ∨ r.name ∈ registeredNames) := by
  refine ⟨rfl, rfl, ?_⟩
  intro user q q' hok r hr
  by_cases hq : q.reachable = true
  · simp [log_user_info, enqueue, hq] at hok
    subst hok
    rcases List.mem_append.mp hr with hmem | hmem
    · exact Or.inl hmem
    · right
      have : r = ⟨q.nextId, "log_user_email", [("user_email", user.email)],
          JobStatus.queued, 0⟩ := by simpa using hmem
      subst this
      simp [registeredNames, FUNCTIONS, log_user_email, send_email_task_handler]
  · simp [log_user_info, enqueue, hq] at hok

/-- Witness for C2: the record enqueued in a concrete run names a registered
handler. -/
theorem enqueue_site_name_registered_witness :
    log_user_info alice qEmpty =
      Except.ok
        { records := [⟨0, "log_user_email", [("user_email", "a@example.com")],
            JobStatus.queued, 0⟩],
          nextId := 1, reachable := true } ∧
    ((JobRecord.mk 0 "log_user_email" [("user_email", "a@example.com")]
        JobStatus.queued 0) ∈ qEmpty.records ∨
      "log_user_email" ∈ registeredNames) := by
  refine ⟨rfl, ?_⟩
  exact enqueue_site_name_registered.2.2 alice qEmpty
    { records := [⟨0, "log_user_email", [("user_email", "a@example.com")],
        JobStatus.queued, 0⟩],
      nextId := 1, reachable := true } rfl
    ⟨0, "log_user_email", [("user_email", "a@example.com")], JobStatus.queued, 0⟩
    (by simp)

/-- C3: the registry FUNCTIONS is a module-level constant built once at import
of app.worker; it holds exactly the two handlers log_user_email and
send_email_task, its name-to-handler mapping is well defined (no duplicate
names), and — being a plain constant of the embedding with no mutating
operation anywhere in the development — it never gains or loses a handler
during the process lifetime. -/
theorem registry_built_once_with_two_handlers :
    FUNCTIONS = [log_user_email, send_email_task_handler] ∧
    registeredNames = ["log_user_email", "send_email_task"] ∧
    FUNCTIONS.length = 2 ∧
    registeredNames.Nodup := by
  refine ⟨rfl, rfl, rfl, by decide⟩

/-- C4: the worker settings object is a mapping with exactly the five keys
queue, functions, concurrency, startup and shutdown; queue holds the module's
queue client built from the configured REDIS_URL, functions holds the FUNCTIONS
registry, concurrency is the integer 10, and startup/shutdown are the lifecycle
hooks. -/
theorem worker_settings_exact_fields (cfg : AppConfig) :
    (worker_settings cfg).map Prod.fst =
      ["queue", "functions", "concurrency", "startup", "shutdown"] ∧
    (worker_settings cfg).lookup "queue" =
      some (SettingValue.queueClient cfg.REDIS_URL) ∧
    (worker_settings cfg).lookup "functions" =
      some (SettingValue.functionList FUNCTIONS) ∧
    (worker_settings cfg).lookup "concurrency" = some (SettingValue.intVal 10) ∧
    (worker_settings cfg).lookup "startup" = some SettingValue.startupHook ∧
    (worker_settings cfg).lookup "shutdown" = some SettingValue.shutdownHook :=
  ⟨rfl, rfl, rfl, rfl, rfl, rfl⟩

/-- C5 counterexample: two different operator configurations yield the same
worker concurrency 10; the value is a literal in app/worker.py, not chosen by
the operator. -/
theorem worker_concurrency_independent_of_config :
    cfgA ≠ cfgB ∧
    (worker_settings cfgA).lookup "concurrency" = some (SettingValue.intVal 10) ∧
    (worker_settings cfgB).lookup "concurrency" = some (SettingValue.intVal 10) := by
  refine ⟨?_, rfl, rfl⟩
  intro h
  have hurl : cfgA.REDIS_URL = cfgB.REDIS_URL := by rw [h]
  simp [cfgA, cfgB] at hurl

/-- C5 amended: the worker pool's number of concurrent execution slots is fixed
by the program at the literal 10, for every operator configuration. -/
theorem worker_concurrency_fixed_at_ten (cfg : AppConfig) :
    (worker_settings cfg).lookup "concurrency" = some (SettingValue.intVal 10) :=
  rfl

/-- C6: every registered handler conforms to `(context, **payload) -> result`:
a single positional context parameter, all payload parameters keyword-only; in
particular send_email_task takes the context first and the keyword-only
parameters recipient, sender, subject, text, html. -/
theorem handlers_conform_to_context_keyword_signature :
    (FUNCTIONS.all (fun h => conformsToHandlerSignature h.params)) = true ∧
    ((send_email_task_handler.params.filter
        (fun p => p.kind == ParamKind.keywordOnly)).map Param.name) =
      ["recipient", "sender", "subject", "text", "html"] ∧
    (send_email_task_handler.params.map Param.kind) =
      [ParamKind.positionalOrKeyword, ParamKind.keywordOnly,
       ParamKind.keywordOnly, ParamKind.keywordOnly, ParamKind.keywordOnly,
       ParamKind.keywordOnly] :=
  ⟨rfl, rfl, rfl⟩

/-- C7: in any worker process run, the registered startup hook performs the
Tortoise initialisation from the TORTOISE_ORM database configuration exactly
once, before every handler invocation, and the registered shutdown hook closes
the connections exactly once, after every handler invocation. -/
theorem startup_initializes_db_before_handlers
    (ctx : List (String × String)) (runs : List String) :
    startup ctx = [DbEffect.tortoiseInit TORTOISE_ORM] ∧
    shutdown ctx = [DbEffect.closeConnections] ∧
    workerProcessTrace ctx runs =
      WorkerEvent.db (DbEffect.tortoiseInit TORTOISE_ORM) ::
        (runs.map WorkerEvent.handlerRun ++
          [WorkerEvent.db DbEffect.closeConnections]) ∧
    (workerProcessTrace ctx runs).count
      (WorkerEvent.db (DbEffect.tortoiseInit TORTOISE_ORM)) = 1 ∧
    (workerProcessTrace ctx runs).count
      (WorkerEvent.db DbEffect.closeConnections) = 1 := by
  refine ⟨rfl, rfl, by simp [workerProcessTrace, startup, shutdown], ?_, ?_⟩
  · simp [workerProcessTrace, startup, shutdown, List.count_append,
      List.count_cons, List.count_eq_zero]
  · simp [workerProcessTrace, startup, shutdown, List.count_append,
      List.count_cons, List.count_eq_zero]

/-- Each pool step permutes the multiset of job ids present in the state. -/
theorem poolStep_perm {K : Nat} {s t : PoolState} (h : PoolStep K s t) :
    (jobsOf t).Perm (jobsOf s) := by
  cases h with
  | dequeue slot j rest a d hK hfree =>
      simpa only [jobsOf, List.map_cons, List.cons_append, List.append_assoc]
        using List.perm_middle
  | complete slot j p a₁ a₂ d =>
      simp only [jobsOf, List.map_append, List.map_cons, List.append_assoc,
        List.cons_append]
      exact List.Perm.append_left p (List.Perm.append_left _ List.perm_middle)

/-- Reachable pool states preserve the multiset of job ids. -/
theorem poolReach_perm {K : Nat} {s t : PoolState} (h : PoolReach K s t) :
    (jobsOf t).Perm (jobsOf s) := by
  induction h with
  | refl => exact List.Perm.refl _
  | step t u hst hstep ih => exact (poolStep_perm hstep).trans ih

/-- C9: starting from N distinct enqueued records and a pool of K slots, in
every reachable state no two slots hold the same record concurrently, every
record is present exactly once across pending, active and done, and once the
pool has drained the queue the completed records are exactly the N initial
records, each processed exactly once. -/
theorem pool_drains_each_record_exactly_once (K : Nat) (jobs : List Nat)
    (s : PoolState) (hnd : jobs.Nodup)
    (hreach : PoolReach K ⟨jobs, [], []⟩ s) :
    (s.active.map Prod.snd).Nodup ∧
    (∀ j ∈ jobs, (jobsOf s).count j = 1) ∧
    (s.pending = [] → s.active = [] → s.done.Perm jobs) := by
  have h0 : jobsOf ⟨jobs, [], []⟩ = jobs := by simp [jobsOf]
  have hperm : (jobsOf s).Perm jobs := h0 ▸ poolReach_perm hreach
  have hnds : (jobsOf s).Nodup := hperm.nodup_iff.mpr hnd
  refine ⟨?_, ?_, ?_⟩
  · have hsub : (s.active.map Prod.snd).Sublist (jobsOf s) := by
      simp only [jobsOf]
      exact (List.sublist_append_right s.pending _).trans
        (List.sublist_append_left _ s.done)
    exact hnds.sublist hsub
  · intro j hj
    rw [hperm.count_eq j]
    exact List.count_eq_one_of_mem hnd hj
  · intro hp ha
    have hdone : jobsOf s = s.done := by simp [jobsOf, hp, ha]
    exact hdone ▸ hperm

/-- A concrete drain: two records, two slots, four steps. -/
theorem poolRun_two_jobs :
    PoolReach 2 ⟨[0, 1], [], []⟩ ⟨[], [], [0, 1]⟩ := by
  have h1 : PoolStep 2 ⟨[0, 1], [], []⟩ ⟨[1], [(0, 0)], []⟩ :=
    PoolStep.dequeue 0 0 [1] [] [] (by decide) (by simp)
  have h2 : PoolStep 2 ⟨[1], [(0, 0)], []⟩ ⟨[], [(1, 1), (0, 0)], []⟩ :=
    PoolStep.dequeue 1 1 [] [(0, 0)] [] (by decide) (by decide)
  have h3 : PoolStep 2 ⟨[], [(1, 1), (0, 0)], []⟩ ⟨[], [(0, 0)], [1]⟩ :=
    PoolStep.complete 1 1 [] [] [(0, 0)] []
  have h4 : PoolStep 2 ⟨[], [(0, 0)], [1]⟩ ⟨[], [], [0, 1]⟩ :=
    PoolStep.complete 0 0 [] [] [] [1]
  exact PoolReach.step _ _ _
    (PoolReach.step _ _ _
      (PoolReach.step _ _ _ (PoolReach.step _ _ _ (PoolReach.refl _) h1) h2) h3) h4

/-- Witness for C9 on a concrete drained run with N = 2 and K = 2. -/
theorem pool_drains_each_record_exactly_once_witness :
    ([0, 1] : List Nat).Nodup ∧
    ((PoolState.mk [] [] [0, 1]).active.map Prod.snd).Nodup ∧
    (PoolState.mk [] [] [0, 1]).done.Perm [0, 1] := by
  refine ⟨by decide, ?_, ?_⟩
  · exact (pool_drains_each_record_exactly_once 2 [0, 1] ⟨[], [], [0, 1]⟩
      (by decide) poolRun_two_jobs).1
  · exact (pool_drains_each_record_exactly_once 2 [0, 1] ⟨[], [], [0, 1]⟩
      (by decide) poolRun_two_jobs).2.2 rfl rfl

/-- C10: which provider class get_mailer selects depends only on
EMAILS_ENABLED: disabled gives the Null provider, making every
send_email_task call succeed with no email delivered (whatever the SMTP
server's state); enabled gives an SMTPMailer built from the SMTP host,
username, password, TLS and port settings. The provider is the module-level
`mailer`, chosen once at import and used for every send. -/
theorem mailer_selection_by_emails_enabled (cfg : AppConfig) :
    (mailer cfg = EmailProvider.Null ↔ cfg.EMAILS_ENABLED = false) ∧
    (cfg.EMAILS_ENABLED = true →
      mailer cfg = EmailProvider.SMTPMailer cfg.SMTP_HOST cfg.SMTP_USERNAME
        cfg.SMTP_PASSWORD cfg.SMTP_TLS cfg.SMTP_PORT) ∧
    (cfg.EMAILS_ENABLED = false →
      ∀ (smtpOk : Bool) (recipient : String × Option String)
        (sender : Option (String × Option String)) (subject : String)
        (text html : Option String),
        send_email_task smtpOk cfg recipient sender subject text html =
          Except.ok []) := by
  refine ⟨?_, ?_, ?_⟩
  · cases hE : cfg.EMAILS_ENABLED <;> simp [mailer, get_mailer, hE]
  · intro hE
    simp [mailer, get_mailer, hE]
  · intro hE smtpOk recipient sender subject text html
    simp [send_email_task, send_email, mailer, get_mailer, hE]

/-- Witness for C10 at concrete disabled and enabled configurations. -/
theorem mailer_selection_by_emails_enabled_witness :
    mailer cfgA = EmailProvider.Null ∧
    send_email_task true cfgA ("to@example.com", none) none "hi" none none =
      Except.ok [] ∧
    mailer cfgMail = EmailProvider.SMTPMailer "smtp.example.com" "u" "p" true 587 := by
  refine ⟨?_, ?_, ?_⟩
  · exact (mailer_selection_by_emails_enabled cfgA).1.mpr rfl
  · exact (mailer_selection_by_emails_enabled cfgA).2.2 rfl true
      ("to@example.com", none) none "hi" none none
  · have h := (mailer_selection_by_emails_enabled cfgMail).2.1 rfl
    simpa [cfgMail, cfgA] using h

end FastapiDemo
